import Mathlib

/-!
# uptrace-go: client lifecycle, out-of-band reporting and option resolution

A shallow embedding of `uptrace/client.go` and `uptrace/config.go`.

Go code with side effects is embedded as explicit state passing over a `World`.
The world keeps a log (`World.trace`) of every call the client makes on its
collaborators (the OpenTelemetry API and SDK), oldest call first, together
with the part of the SDK state those calls read back (which span processors are
registered on which provider, which provider is the process-wide one).

A Go function that can panic returns an `Outcome`: either it returned a value,
or it left by a panic carrying a value.
-/

namespace uptrace

/-! ## Values shared by both files -/

/-- A Go `string`. -/
abbrev GoString := String

/-- A Go pointer or interface value: nil (`none`) or set (`some`). -/
abbrev Nilable (α : Type) : Type := Option α

/-- A non-nil Go `interface{}` value, as used for panic values and for
attribute values (`label.Any`). -/
inductive Value where
  | str (s : String)
  | int (n : Int)
  | bool (b : Bool)
  | error (msg : String)
  | runtimeError (msg : String)
  deriving DecidableEq, Repr

/-- A non-nil Go `error`. -/
structure Error where
  msg : String
  deriving DecidableEq, Repr

/-- The value the Go runtime panics with when a nil pointer is dereferenced. -/
def nilDereference : Value :=
  Value.runtimeError "invalid memory address or nil pointer dereference"

/-! ## Collaborators of client.go (OpenTelemetry API and SDK)

These packages are external to the repository. They are modelled at the
interface client.go calls, and every call is logged in `World.trace`. -/

namespace label

/-- The type `label.KeyValue`. -/
structure KeyValue where
  key : GoString
  value : Value
  deriving DecidableEq, Repr

/-- The function `label.String(k, v)`. -/
def String (k v : GoString) : KeyValue := ⟨k, Value.str v⟩

/-- The function `label.Any(k, v)`. -/
def Any (k : GoString) (v : Value) : KeyValue := ⟨k, v⟩

end label

namespace resource

/-- The type `resource.Resource` of the SDK used by client.go: a set of labels. -/
structure Resource where
  labels : List label.KeyValue
  deriving DecidableEq, Repr

/-- The function `resource.New(kvs...)`. -/
def New (kvs : List label.KeyValue) : Resource := ⟨kvs⟩

end resource

namespace apitrace

/-- A span handle (`apitrace.Span`). `NoopSpan` is what `SpanFromContext`
yields for a context without a span; `span id recording` is a span started by
a tracer, with the answer its `IsRecording` gives. -/
inductive Span where
  | NoopSpan
  | span (id : Nat) (recording : Bool)
  deriving DecidableEq, Repr

/-- The type `apitrace.ErrorOption`, passed through to `RecordError` untouched. -/
structure ErrorOption where
  tag : GoString
  deriving DecidableEq, Repr

/-- The type `apitrace.Tracer`, as returned by `global.Tracer(name)`. -/
structure Tracer where
  name : GoString
  deriving DecidableEq, Repr

end apitrace

namespace sdktrace

/-- The interface `sdktrace.Sampler`. -/
structure Sampler where
  description : GoString
  deriving DecidableEq, Repr

/-- A non-nil `sdktrace.SpanProcessor`. -/
structure SpanProcessor where
  id : Nat
  deriving DecidableEq, Repr

/-- The struct `sdktrace.Config` handed to `sdktrace.WithConfig`. -/
structure Config where
  Resource : Nilable resource.Resource
  DefaultSampler : Nilable Sampler
  deriving DecidableEq, Repr

/-- A non-nil `*sdktrace.Provider`. -/
structure Provider where
  id : Nat
  deriving DecidableEq, Repr

end sdktrace

/-- A `context.Context`, reduced to the span it carries (if any). -/
structure Context where
  span : Nilable apitrace.Span
  deriving DecidableEq, Repr

/-- One call made on a collaborator. -/
inductive Call where
  | Start (tracer : apitrace.Tracer) (name : GoString) (span : apitrace.Span)
  | RecordError (span : apitrace.Span) (err : Error) (opts : List apitrace.ErrorOption)
  | AddEvent (span : apitrace.Span) (name : GoString) (attrs : List label.KeyValue)
  | End (span : apitrace.Span)
  | NewProvider (cfg : sdktrace.Config) (provider : Nilable sdktrace.Provider)
  | NewBatchSpanProcessor (sp : Nilable sdktrace.SpanProcessor)
  | RegisterSpanProcessor (provider : sdktrace.Provider) (sp : Nilable sdktrace.SpanProcessor)
  | UnregisterSpanProcessor (provider : sdktrace.Provider) (sp : Nilable sdktrace.SpanProcessor)
  | Shutdown (sp : sdktrace.SpanProcessor)
  | SetTraceProvider (provider : sdktrace.Provider)
  | Printf (format : GoString) (arg : GoString)
  deriving DecidableEq, Repr

/-- The state outside the client. -/
structure World where
  /-- Calls made on collaborators so far, oldest first. -/
  trace : List Call
  /-- Identifier of the next span a tracer starts. -/
  nextSpan : Nat
  /-- Whether spans started by the installed tracer record. -/
  startRecording : Bool
  /-- Identifier of the next provider `sdktrace.NewProvider` allocates. -/
  nextProvider : Nat
  /-- The span processors registered on each provider (the keys of each
  provider's processor map; a key is an interface value and may be nil). -/
  registered : List (sdktrace.Provider × Nilable sdktrace.SpanProcessor)
  /-- The process-wide trace provider (`global.SetTraceProvider`). -/
  globalProvider : Nilable sdktrace.Provider
  deriving DecidableEq, Repr

/-- Append one call to the log. -/
def World.log (w : World) (c : Call) : World :=
  { w with trace := w.trace ++ [c] }

/-- How a Go function that may panic ends. -/
inductive Outcome (α : Type) where
  | returned (a : α) (w : World)
  | panicked (v : Value) (w : World)
  deriving DecidableEq, Repr

/-- The world a function leaves behind, however it ended. -/
def Outcome.world {α : Type} : Outcome α → World
  | .returned _ w => w
  | .panicked _ w => w

namespace apitrace

/-- The function `apitrace.SpanFromContext(ctx)`: the span of the context, or
the no-op span when the context carries none. -/
def SpanFromContext (ctx : Context) : Span :=
  match ctx.span with
  | some s => s
  | none => Span.NoopSpan

/-- The method `Span.IsRecording()`. -/
def Span.IsRecording : Span → Bool
  | .NoopSpan => false
  | .span _ recording => recording

/-- The method `Tracer.Start(ctx, name)`: a fresh span, and the context that
carries it. -/
def Tracer.Start (t : Tracer) (_ctx : Context) (name : GoString) (w : World) :
    (Context × Span) × World :=
  let s := Span.span w.nextSpan w.startRecording
  ((⟨some s⟩, s), { w.log (Call.Start t name s) with nextSpan := w.nextSpan + 1 })

/-- The method `Span.RecordError(ctx, err, opts...)`. -/
def Span.RecordError (s : Span) (_ctx : Context) (err : Error) (opts : List ErrorOption)
    (w : World) : World :=
  w.log (Call.RecordError s err opts)

/-- The method `Span.AddEvent(ctx, name, attrs...)`. -/
def Span.AddEvent (s : Span) (_ctx : Context) (name : GoString) (attrs : List label.KeyValue)
    (w : World) : World :=
  w.log (Call.AddEvent s name attrs)

/-- The method `Span.End()`. -/
def Span.End (s : Span) (w : World) : World :=
  w.log (Call.End s)

end apitrace

namespace global

/-- The function `global.Tracer(name)`. -/
def Tracer (name : GoString) : apitrace.Tracer := ⟨name⟩

/-- The function `global.SetTraceProvider(p)`. A nil provider is stored as is. -/
def SetTraceProvider (p : Nilable sdktrace.Provider) (w : World) : World :=
  match p with
  | some q => { w.log (Call.SetTraceProvider q) with globalProvider := some q }
  | none => { w with globalProvider := none }

end global

namespace sdktrace

/-- The function `sdktrace.NewProvider(sdktrace.WithConfig(cfg))`. Whether it
fails is the caller-supplied `err`; on success a fresh provider is allocated,
on failure the provider returned is nil. -/
def NewProvider (err : Nilable Error) (cfg : Config) (w : World) :
    (Nilable Provider × Nilable Error) × World :=
  match err with
  | some e => ((none, some e), w.log (Call.NewProvider cfg none))
  | none =>
    let p : Provider := ⟨w.nextProvider⟩
    ((some p, none), { w.log (Call.NewProvider cfg (some p)) with nextProvider := w.nextProvider + 1 })

/-- The method `(*Provider).RegisterSpanProcessor(s)`. The method locks the
receiver and rewrites its processor map, so a nil receiver is a nil-pointer
dereference. On a provider, the processor becomes a key of the map. -/
def Provider.RegisterSpanProcessor (p : Nilable Provider) (s : Nilable SpanProcessor)
    (w : World) : Outcome Unit :=
  match p with
  | none => .panicked nilDereference w
  | some q =>
    .returned ()
      { w.log (Call.RegisterSpanProcessor q s) with
        registered := (q, s) :: w.registered.filter (fun e => e ≠ (q, s)) }

/-- The method `(*Provider).UnregisterSpanProcessor(s)`. The method locks the
receiver and rewrites its processor map, so a nil receiver is a nil-pointer
dereference. On a provider, a processor that is a key of the map is shut down
(once) and removed; one that is not leaves the map as it is. Shutting down a
nil processor is itself a nil dereference. -/
def Provider.UnregisterSpanProcessor (p : Nilable Provider) (s : Nilable SpanProcessor)
    (w : World) : Outcome Unit :=
  match p with
  | none => .panicked nilDereference w
  | some q =>
    let w := w.log (Call.UnregisterSpanProcessor q s)
    if (q, s) ∈ w.registered then
      match s with
      | none => .panicked nilDereference w
      | some sp =>
        .returned ()
          { w.log (Call.Shutdown sp) with
            registered := w.registered.filter (fun e => e ≠ (q, s)) }
    else
      .returned () w

end sdktrace

/-! ## client.go -/

/-- The constant `dummySpanName`. -/
def dummySpanName : GoString := "__dummy__"

/-- Modelled from the spec: the declaration of `upconfig.Config` (aliased as
`Config` in client.go) is missing from the sources; these are the fields
client.go reads, with the spec's meaning (`Disabled` is the spec's
`tracingDisabled`). `Resource` is a Go map, kept as its list of entries. -/
structure Config where
  DSN : GoString
  Resource : List (GoString × Value)
  Sampler : Nilable sdktrace.Sampler
  Disabled : Bool
  deriving DecidableEq, Repr

/-- Functions of the repository that client.go calls and whose bodies are
missing from the sources, taken as parameters: `(*upconfig.Config).Init`,
`spanexp.NewBatchSpanProcessor`, and whether the SDK's `NewProvider` fails. -/
structure Deps where
  Init : Config → Config
  NewProviderErr : sdktrace.Config → Nilable Error
  NewBatchSpanProcessor : Config → Except Error sdktrace.SpanProcessor

/-- The struct `Client`. The tracer is set by `NewClient`, the constructor of
the package; the processor and the provider are nil until tracing is set up. -/
structure Client where
  cfg : Config
  tracer : apitrace.Tracer
  sp : Nilable sdktrace.SpanProcessor
  provider : Nilable sdktrace.Provider
  deriving DecidableEq, Repr

/-- Run the calls a function deferred. The list is the defer stack, the call
deferred last at its head, so that it runs first. -/
def runDeferred (deferred : List (World → World)) (w : World) : World :=
  deferred.foldl (fun w f => f w) w

/-- The method `(*Client).setupTracing`. The result carries the client as the
method leaves it. -/
def Client.setupTracing (d : Deps) (c : Client) (w : World) : Outcome Client :=
  if c.cfg.Disabled then
    .returned c w
  else
    let kvs := c.cfg.Resource.map (fun kv => label.Any kv.1 kv.2)
    let res : Nilable resource.Resource :=
      if kvs.length > 0 then some (resource.New kvs) else none
    let sdkcfg : sdktrace.Config := { Resource := res, DefaultSampler := c.cfg.Sampler }
    let ((provider, err), w) := sdktrace.NewProvider (d.NewProviderErr sdkcfg) sdkcfg w
    let c := { c with provider := provider }
    match err with
    | some e => .returned c (w.log (Call.Printf "NewProvider failed: %s" e.msg))
    | none =>
      match d.NewBatchSpanProcessor c.cfg with
      | .error e =>
        let w := w.log (Call.NewBatchSpanProcessor none)
        let c := { c with sp := none }
        .returned c (w.log (Call.Printf "NewBatchSpanProcessor failed: %s" e.msg))
      | .ok sp =>
        let w := w.log (Call.NewBatchSpanProcessor (some sp))
        let c := { c with sp := some sp }
        match sdktrace.Provider.RegisterSpanProcessor c.provider c.sp w with
        | .panicked v w => .panicked v w
        | .returned () w => .returned c (global.SetTraceProvider c.provider w)

/-- The function `NewClient`. -/
def NewClient (d : Deps) (cfg : Config) (w : World) : Outcome Client :=
  let cfg := d.Init cfg
  let client : Client :=
    { cfg := cfg
      tracer := global.Tracer "github.com/uptrace/uptrace-go"
      sp := none
      provider := none }
  Client.setupTracing d client w

/-- The method `(*Client).Close`. `runtime.Gosched()` only yields the
processor and leaves the state alone. -/
def Client.Close (c : Client) (w : World) : Outcome (Nilable Error) :=
  match sdktrace.Provider.UnregisterSpanProcessor c.provider c.sp w with
  | .panicked v w => .panicked v w
  | .returned () w => .returned none w

/-- The method `(*Client).ReportError`. -/
def Client.ReportError (c : Client) (ctx : Context) (err : Error)
    (opts : List apitrace.ErrorOption) (w : World) : Outcome Unit :=
  let span := apitrace.SpanFromContext ctx
  let (ctx, span, deferred, w) :=
    if !span.IsRecording then
      let ((ctx, span), w) := c.tracer.Start ctx dummySpanName w
      (ctx, span, [span.End], w)
    else
      (ctx, span, [], w)
  let w := span.RecordError ctx err opts w
  .returned () (runDeferred deferred w)

/-- The method `(*Client).ReportPanic`, called by `defer`. `recovered` is
what `recover()` yields: the value of the panic in flight, or nil when the
goroutine is not panicking. -/
def Client.ReportPanic (c : Client) (ctx : Context) (recovered : Nilable Value)
    (w : World) : Outcome Unit :=
  match recovered with
  | none => .returned () w
  | some val =>
    let span := apitrace.SpanFromContext ctx
    let isRecording := span.IsRecording
    let (ctx, span, w) :=
      if !isRecording then
        let ((ctx, span), w) := c.tracer.Start ctx dummySpanName w
        (ctx, span, w)
      else
        (ctx, span, w)
    let w := span.AddEvent ctx "log"
      [label.String "log.severity" "panic", label.Any "log.message" val] w
    let w := if !isRecording then span.End w else w
    .panicked val w

/-- The method `(*Client).Tracer`. -/
def Client.Tracer (_c : Client) (name : GoString) : apitrace.Tracer :=
  global.Tracer name

/-! ## config.go -/

namespace os

/-- The process environment: the variables that are set, with their values. -/
abbrev Environ := List (GoString × GoString)

/-- The function `os.LookupEnv(key)`: the value and true when the variable is
set, the empty string and false when it is not. -/
def LookupEnv (env : Environ) (key : GoString) : GoString × Bool :=
  match env.lookup key with
  | some v => (v, true)
  | none => ("", false)

end os

/-- The type `attribute.KeyValue` of config.go (the later name of
`label.KeyValue`). -/
abbrev AttributeKeyValue := label.KeyValue

namespace propagation

/-- A non-nil `propagation.TextMapPropagator`. -/
structure TextMapPropagator where
  fields : List GoString
  deriving DecidableEq, Repr

end propagation

namespace sdktrace

/-- A non-nil `*sdktrace.TracerProvider`. -/
structure TracerProvider where
  id : Nat
  deriving DecidableEq, Repr

end sdktrace

/-- The struct `config`. Pointers and interfaces are nil (`none`) or set. -/
structure config where
  DSN : GoString
  ServiceName : GoString
  ServiceVersion : GoString
  ResourceAttributes : List AttributeKeyValue
  Resource : Nilable resource.Resource
  TracingDisabled : Bool
  TextMapPropagator : Nilable propagation.TextMapPropagator
  TracerProvider : Nilable sdktrace.TracerProvider
  TraceSampler : Nilable sdktrace.Sampler
  PrettyPrint : Bool
  MetricsDisabled : Bool
  deriving DecidableEq, Repr

/-- The zero value `new(config)`. -/
def config.new : config :=
  { DSN := ""
    ServiceName := ""
    ServiceVersion := ""
    ResourceAttributes := []
    Resource := none
    TracingDisabled := false
    TextMapPropagator := none
    TracerProvider := none
    TraceSampler := none
    PrettyPrint := false
    MetricsDisabled := false }

/-- The interface `Option`, as the three function types that implement it:
`option`, `tracingOption` (a `TracingOption`) and `metricsOption` (a
`MetricsOption`). A function on `*config` is a function from the
configuration before to the configuration after. -/
inductive Option where
  | option (fn : config → config)
  | tracingOption (fn : config → config)
  | metricsOption (fn : config → config)

/-- The three `apply` methods: each calls the function. -/
def Option.apply : Option → config → config
  | .option fn, cfg => fn cfg
  | .tracingOption fn, cfg => fn cfg
  | .metricsOption fn, cfg => fn cfg

/-- The function `WithDSN`. -/
def WithDSN (dsn : GoString) : Option :=
  .option (fun cfg => { cfg with DSN := dsn })

/-- The function `WithServiceName`. -/
def WithServiceName (serviceName : GoString) : Option :=
  .option (fun cfg => { cfg with ServiceName := serviceName })

/-- The function `WithServiceVersion`. -/
def WithServiceVersion (serviceVersion : GoString) : Option :=
  .option (fun cfg => { cfg with ServiceVersion := serviceVersion })

/-- The function `WithResourceAttributes`. -/
def WithResourceAttributes (resourceAttributes : List AttributeKeyValue) : Option :=
  .option (fun cfg => { cfg with ResourceAttributes := resourceAttributes })

/-- The function `WithResource`. -/
def WithResource (resource : Nilable resource.Resource) : Option :=
  .option (fun cfg => { cfg with Resource := resource })

/-- The function `WithTracingDisabled`. -/
def WithTracingDisabled : Option :=
  .tracingOption (fun cfg => { cfg with TracingDisabled := true })

/-- The function `WithTracerProvider`. -/
def WithTracerProvider (provider : Nilable sdktrace.TracerProvider) : Option :=
  .tracingOption (fun cfg => { cfg with TracerProvider := provider })

/-- The function `WithTraceSampler`. -/
def WithTraceSampler (sampler : Nilable sdktrace.Sampler) : Option :=
  .tracingOption (fun cfg => { cfg with TraceSampler := sampler })

/-- The function `WithTextMapPropagator`. -/
def WithTextMapPropagator (propagator : Nilable propagation.TextMapPropagator) : Option :=
  .tracingOption (fun cfg => { cfg with TextMapPropagator := propagator })

/-- The function `WithPrettyPrintSpanExporter`. -/
def WithPrettyPrintSpanExporter : Option :=
  .tracingOption (fun cfg => { cfg with PrettyPrint := true })

/-- The function `WithMetricsDisabled`. -/
def WithMetricsDisabled : Option :=
  .metricsOption (fun cfg => { cfg with MetricsDisabled := true })

/-- The function `newConfig`, in the environment `env`. -/
def newConfig (env : os.Environ) (opts : List Option) : config :=
  let cfg := config.new
  let (dsn, ok) := os.LookupEnv env "UPTRACE_DSN"
  let cfg := if ok then { cfg with DSN := dsn } else cfg
  opts.foldl (fun cfg opt => opt.apply cfg) cfg

/-- A call of one of the exported option constructors. `Option` has an
unexported method, so these calls are the only way a caller of the package
obtains an option. -/
inductive OptionCall where
  | WithDSN (dsn : GoString)
  | WithServiceName (serviceName : GoString)
  | WithServiceVersion (serviceVersion : GoString)
  | WithResourceAttributes (resourceAttributes : List AttributeKeyValue)
  | WithResource (resource : Nilable resource.Resource)
  | WithTracingDisabled
  | WithTracerProvider (provider : Nilable sdktrace.TracerProvider)
  | WithTraceSampler (sampler : Nilable sdktrace.Sampler)
  | WithTextMapPropagator (propagator : Nilable propagation.TextMapPropagator)
  | WithPrettyPrintSpanExporter
  | WithMetricsDisabled
  deriving DecidableEq, Repr

/-- The option a constructor call returns. -/
def OptionCall.eval : OptionCall → Option
  | .WithDSN dsn => uptrace.WithDSN dsn
  | .WithServiceName serviceName => uptrace.WithServiceName serviceName
  | .WithServiceVersion serviceVersion => uptrace.WithServiceVersion serviceVersion
  | .WithResourceAttributes resourceAttributes =>
      uptrace.WithResourceAttributes resourceAttributes
  | .WithResource resource => uptrace.WithResource resource
  | .WithTracingDisabled => uptrace.WithTracingDisabled
  | .WithTracerProvider provider => uptrace.WithTracerProvider provider
  | .WithTraceSampler sampler => uptrace.WithTraceSampler sampler
  | .WithTextMapPropagator propagator => uptrace.WithTextMapPropagator propagator
  | .WithPrettyPrintSpanExporter => uptrace.WithPrettyPrintSpanExporter
  | .WithMetricsDisabled => uptrace.WithMetricsDisabled

/-- Whether the call is a call of `WithDSN`, the one constructor whose option
writes the DSN. -/
def OptionCall.isWithDSN : OptionCall → Bool
  | .WithDSN _ => true
  | _ => false

/-- How many times a call satisfying `p` occurs in a log. -/
def countCalls (p : Call → Bool) (trace : List Call) : Nat :=
  (trace.filter p).length

/-- Whether the call is `UnregisterSpanProcessor` on this provider for this
processor. -/
def Call.isUnregister (q : sdktrace.Provider) (sp : sdktrace.SpanProcessor) : Call → Bool
  | .UnregisterSpanProcessor q0 s => decide (q0 = q ∧ s = some sp)
  | _ => false

/-- Whether the call shuts this processor down, which is what releasing its
registration does. -/
def Call.isShutdown (sp : sdktrace.SpanProcessor) : Call → Bool
  | .Shutdown s => decide (s = sp)
  | _ => false

/-! ## Sequencing, and concrete inputs -/

/-- Run `f` on what `o` returned, in the world `o` left; a panic of `o`
propagates. -/
def Outcome.andThen {α β : Type} (o : Outcome α) (f : α → World → Outcome β) : Outcome β :=
  match o with
  | .returned a w => f a w
  | .panicked v w => .panicked v w

/-- Two calls of `Close` in a row on the same client. -/
def closeTwice (c : Client) (w : World) : Outcome (Nilable Error) :=
  (c.Close w).andThen (fun _ w => c.Close w)

/-- An initial world: nothing called yet, no provider installed. -/
def World.initial : World :=
  { trace := []
    nextSpan := 1
    startRecording := true
    nextProvider := 0
    registered := []
    globalProvider := none }

/-- Collaborators that succeed: `Init` leaves the configuration as it is, the
provider and the span processor (number 7) are built without error. -/
def Deps.succeeding : Deps :=
  { Init := fun cfg => cfg
    NewProviderErr := fun _ => none
    NewBatchSpanProcessor := fun _ => .ok ⟨7⟩ }

/-- A configuration with tracing enabled. -/
def Config.enabled : Config :=
  { DSN := "https://key@host/1", Resource := [], Sampler := none, Disabled := false }

/-- A configuration with tracing disabled. -/
def Config.disabled : Config :=
  { DSN := "", Resource := [], Sampler := none, Disabled := true }

/-- The client `NewClient` builds from `Config.enabled` when setup succeeds in
the initial world. -/
def Client.enabled : Client :=
  { cfg := Config.enabled
    tracer := global.Tracer "github.com/uptrace/uptrace-go"
    sp := some ⟨7⟩
    provider := some ⟨0⟩ }

/-- The world `NewClient` leaves when it built `Client.enabled`. -/
def World.afterSetup : World :=
  { trace :=
      [Call.NewProvider { Resource := none, DefaultSampler := none } (some ⟨0⟩),
       Call.NewBatchSpanProcessor (some ⟨7⟩),
       Call.RegisterSpanProcessor ⟨0⟩ (some ⟨7⟩),
       Call.SetTraceProvider ⟨0⟩]
    nextSpan := 1
    startRecording := true
    nextProvider := 1
    registered := [(⟨0⟩, some ⟨7⟩)]
    globalProvider := some ⟨0⟩ }

/-! ## Helper lemmas -/

/-- A disabled configuration (as `Init` leaves it) makes `NewClient` return at
once: the handles stay nil and the world is untouched. -/
theorem NewClient_disabled (d : Deps) (cfg : Config) (w : World)
    (h : (d.Init cfg).Disabled = true) :
    NewClient d cfg w = Outcome.returned
      { cfg := d.Init cfg
        tracer := global.Tracer "github.com/uptrace/uptrace-go"
        sp := none
        provider := none } w := by
  simp [NewClient, Client.setupTracing, h]

/-- Options built by the exported constructors never clear `TracingDisabled`. -/
theorem eval_keeps_TracingDisabled (c : OptionCall) (cfg : config)
    (h : cfg.TracingDisabled = true) : (c.eval.apply cfg).TracingDisabled = true := by
  cases c <;> simp [OptionCall.eval, Option.apply, WithDSN, WithServiceName,
    WithServiceVersion, WithResourceAttributes, WithResource, WithTracingDisabled,
    WithTracerProvider, WithTraceSampler, WithTextMapPropagator,
    WithPrettyPrintSpanExporter, WithMetricsDisabled, h]

/-- Once set, `TracingDisabled` survives the application of any list of
options built by the exported constructors. -/
theorem foldl_keeps_TracingDisabled (calls : List OptionCall) (cfg : config)
    (h : cfg.TracingDisabled = true) :
    ((calls.map OptionCall.eval).foldl (fun cfg opt => opt.apply cfg) cfg).TracingDisabled
      = true := by
  induction calls generalizing cfg with
  | nil => simpa using h
  | cons c cs ih =>
    simp only [List.map_cons, List.foldl_cons]
    exact ih _ (eval_keeps_TracingDisabled c cfg h)

/-- A list that contains `WithTracingDisabled()` sets `TracingDisabled`,
whatever the configuration it is applied to. -/
theorem foldl_sets_TracingDisabled (calls : List OptionCall) (cfg : config)
    (h : OptionCall.WithTracingDisabled ∈ calls) :
    ((calls.map OptionCall.eval).foldl (fun cfg opt => opt.apply cfg) cfg).TracingDisabled
      = true := by
  induction calls generalizing cfg with
  | nil => simp at h
  | cons c cs ih =>
    simp only [List.map_cons, List.foldl_cons]
    rcases List.mem_cons.mp h with hc | hcs
    · subst hc
      exact foldl_keeps_TracingDisabled cs _ (by simp [OptionCall.eval, Option.apply,
        WithTracingDisabled])
    · exact ih _ hcs

/-- An option built by a constructor other than `WithDSN` leaves the DSN. -/
theorem eval_keeps_DSN (c : OptionCall) (cfg : config) (h : c.isWithDSN = false) :
    (c.eval.apply cfg).DSN = cfg.DSN := by
  cases c <;> simp_all [OptionCall.eval, Option.apply, OptionCall.isWithDSN,
    WithServiceName, WithServiceVersion, WithResourceAttributes, WithResource,
    WithTracingDisabled, WithTracerProvider, WithTraceSampler, WithTextMapPropagator,
    WithPrettyPrintSpanExporter, WithMetricsDisabled]

/-- A list without a call of `WithDSN` leaves the DSN. -/
theorem foldl_keeps_DSN (calls : List OptionCall) (cfg : config)
    (h : calls.any OptionCall.isWithDSN = false) :
    ((calls.map OptionCall.eval).foldl (fun cfg opt => opt.apply cfg) cfg).DSN = cfg.DSN := by
  induction calls generalizing cfg with
  | nil => rfl
  | cons c cs ih =>
    simp only [List.any_cons, Bool.or_eq_false_iff] at h
    simp only [List.map_cons, List.foldl_cons]
    rw [ih _ h.2, eval_keeps_DSN c cfg h.1]

/-- The DSN `newConfig` starts from, before any option is applied. -/
theorem newConfig_nil_DSN (env : os.Environ) :
    (newConfig env []).DSN =
      (match env.lookup "UPTRACE_DSN" with
       | some s => s
       | none => "") := by
  unfold newConfig os.LookupEnv
  cases env.lookup "UPTRACE_DSN" <;> rfl

/-- The configuration of `newConfig` is the fold of the options over the
configuration of the empty list. -/
theorem newConfig_eq_foldl (env : os.Environ) (opts : List Option) :
    newConfig env opts = opts.foldl (fun cfg opt => opt.apply cfg) (newConfig env []) := by
  rfl

/-- The concrete client and world are what `NewClient` yields when setup
succeeds in the initial world. -/
theorem NewClient_enabled_eval :
    NewClient Deps.succeeding Config.enabled World.initial
      = Outcome.returned Client.enabled World.afterSetup := by
  rfl

/-- When `NewClient` returns a client whose processor is set, tracing setup
ran to its end: the provider is set, the processor is registered on it, and
it is the process-wide provider. -/
theorem NewClient_setup_succeeded (d : Deps) (cfg : Config) (w w1 : World) (c : Client)
    (sp : sdktrace.SpanProcessor) (hnew : NewClient d cfg w = Outcome.returned c w1)
    (hsp : c.sp = some sp) :
    ∃ p, c.provider = some p ∧ (p, some sp) ∈ w1.registered ∧
      w1.globalProvider = some p := by
  unfold NewClient Client.setupTracing at hnew
  simp only at hnew
  split at hnew
  · simp only [Outcome.returned.injEq] at hnew
    rw [← hnew.1] at hsp
    simp at hsp
  · cases hperr : d.NewProviderErr
        { Resource :=
            if (List.map (fun kv => label.Any kv.1 kv.2) (d.Init cfg).Resource).length > 0 then
              some (resource.New (List.map (fun kv => label.Any kv.1 kv.2) (d.Init cfg).Resource))
            else none,
          DefaultSampler := (d.Init cfg).Sampler } with
    | some e =>
      simp only [hperr, sdktrace.NewProvider, Outcome.returned.injEq] at hnew
      rw [← hnew.1] at hsp
      simp at hsp
    | none =>
      simp only [hperr, sdktrace.NewProvider] at hnew
      cases hbsp : d.NewBatchSpanProcessor (d.Init cfg) with
      | error e =>
        simp only [hbsp, Outcome.returned.injEq] at hnew
        rw [← hnew.1] at hsp
        simp at hsp
      | ok sp0 =>
        simp only [hbsp, sdktrace.Provider.RegisterSpanProcessor, global.SetTraceProvider,
          Outcome.returned.injEq] at hnew
        obtain ⟨hc, hw⟩ := hnew
        subst hc hw
        simp only [Option.some.injEq] at hsp
        subst hsp
        exact ⟨⟨w.nextProvider⟩, rfl, by simp [World.log], rfl⟩

/-- On the concrete successful setup, two calls of `Close` shut the processor
down once. -/
theorem Close_twice_shutdown_count_eval :
    countCalls (Call.isShutdown ⟨7⟩)
      ((NewClient Deps.succeeding Config.enabled World.initial).andThen
        closeTwice).world.trace = 1 := by
  decide

/-! ## Reporting errors and panics -/

/-- C1: run while a panic with value `v` is in flight, `ReportPanic` ends by
a panic whose value is `v`, for every client, context and world: it does not
return normally and does not raise another value. -/
theorem ReportPanic_reraises (c : Client) (ctx : Context) (v : Value) (w : World) :
    ∃ w1, c.ReportPanic ctx (some v) w = Outcome.panicked v w1 := by
  cases h : (apitrace.SpanFromContext ctx).IsRecording <;>
    simp [Client.ReportPanic, h]

/-- C4: when the ambient span of the context does not record (or the context
has no span), `ReportError` returns, and the calls it made are, in this order:
one `Start` of a fresh span named `"__dummy__"`, one `RecordError` of `err` on
that span, one `End` of that span. -/
theorem ReportError_dummy_span (c : Client) (ctx : Context) (err : Error)
    (opts : List apitrace.ErrorOption) (w : World)
    (h : (apitrace.SpanFromContext ctx).IsRecording = false) :
    ∃ w1, c.ReportError ctx err opts w = Outcome.returned () w1 ∧
      w1.trace = w.trace ++
        [Call.Start c.tracer "__dummy__" (apitrace.Span.span w.nextSpan w.startRecording),
         Call.RecordError (apitrace.Span.span w.nextSpan w.startRecording) err opts,
         Call.End (apitrace.Span.span w.nextSpan w.startRecording)] ∧
      w1.nextSpan = w.nextSpan + 1 := by
  simp [Client.ReportError, h, apitrace.Tracer.Start, apitrace.Span.RecordError,
    apitrace.Span.End, runDeferred, World.log, dummySpanName]

/-- Witness of C4: a context without a span, in the initial world. -/
theorem ReportError_dummy_span_witness :
    (apitrace.SpanFromContext ⟨none⟩).IsRecording = false ∧
    ∃ w1, Client.enabled.ReportError ⟨none⟩ ⟨"boom"⟩ [] World.initial
        = Outcome.returned () w1 ∧
      w1.trace = World.initial.trace ++
        [Call.Start Client.enabled.tracer "__dummy__"
           (apitrace.Span.span World.initial.nextSpan World.initial.startRecording),
         Call.RecordError
           (apitrace.Span.span World.initial.nextSpan World.initial.startRecording)
           ⟨"boom"⟩ [],
         Call.End (apitrace.Span.span World.initial.nextSpan World.initial.startRecording)] ∧
      w1.nextSpan = World.initial.nextSpan + 1 :=
  ⟨rfl, ReportError_dummy_span Client.enabled ⟨none⟩ ⟨"boom"⟩ [] World.initial rfl⟩

/-- C5: when the ambient span of the context records, `ReportError` returns,
and the one call it made is `RecordError` of `err` on the ambient span: no
span is started (the span counter is unchanged) and none is ended. -/
theorem ReportError_ambient_span (c : Client) (ctx : Context) (err : Error)
    (opts : List apitrace.ErrorOption) (w : World)
    (h : (apitrace.SpanFromContext ctx).IsRecording = true) :
    ∃ w1, c.ReportError ctx err opts w = Outcome.returned () w1 ∧
      w1.trace = w.trace ++ [Call.RecordError (apitrace.SpanFromContext ctx) err opts] ∧
      w1.nextSpan = w.nextSpan := by
  simp [Client.ReportError, h, apitrace.Span.RecordError, runDeferred, World.log]

/-- Witness of C5: a context whose span 5 records, in the initial world. -/
theorem ReportError_ambient_span_witness :
    (apitrace.SpanFromContext ⟨some (apitrace.Span.span 5 true)⟩).IsRecording = true ∧
    ∃ w1, Client.enabled.ReportError ⟨some (apitrace.Span.span 5 true)⟩ ⟨"boom"⟩ []
        World.initial = Outcome.returned () w1 ∧
      w1.trace = World.initial.trace ++
        [Call.RecordError (apitrace.SpanFromContext ⟨some (apitrace.Span.span 5 true)⟩)
          ⟨"boom"⟩ []] ∧
      w1.nextSpan = World.initial.nextSpan :=
  ⟨rfl, ReportError_ambient_span Client.enabled ⟨some (apitrace.Span.span 5 true)⟩
    ⟨"boom"⟩ [] World.initial rfl⟩

/-- C6: with a panic of value `v` in flight, `ReportPanic` ends a span exactly
when it started it. If the ambient span records, the one call made is
`AddEvent` of the panic event on the ambient span, and the span counter is
unchanged. Otherwise the calls are, in this order, `Start` of a fresh span
named `"__dummy__"`, `AddEvent` of the panic event on it, and `End` of it. In
both cases the panic is raised again after these calls. -/
theorem ReportPanic_ends_only_its_own_span (c : Client) (ctx : Context) (v : Value)
    (w : World) :
    ∃ w1, c.ReportPanic ctx (some v) w = Outcome.panicked v w1 ∧
      w1.trace = w.trace ++
        (if (apitrace.SpanFromContext ctx).IsRecording = true then
          [Call.AddEvent (apitrace.SpanFromContext ctx) "log"
            [label.String "log.severity" "panic", label.Any "log.message" v]]
         else
          [Call.Start c.tracer "__dummy__"
             (apitrace.Span.span w.nextSpan w.startRecording),
           Call.AddEvent (apitrace.Span.span w.nextSpan w.startRecording) "log"
             [label.String "log.severity" "panic", label.Any "log.message" v],
           Call.End (apitrace.Span.span w.nextSpan w.startRecording)]) ∧
      w1.nextSpan =
        (if (apitrace.SpanFromContext ctx).IsRecording = true then w.nextSpan
         else w.nextSpan + 1) := by
  cases h : (apitrace.SpanFromContext ctx).IsRecording <;>
    simp [Client.ReportPanic, h, apitrace.Tracer.Start, apitrace.Span.AddEvent,
      apitrace.Span.End, World.log, dummySpanName]

/-- C7: with no panic in flight (`recover()` yields nil), `ReportPanic`
returns normally and leaves the world as it was: no span started, no event
added, no span ended. -/
theorem ReportPanic_no_panic (c : Client) (ctx : Context) (w : World) :
    c.ReportPanic ctx none w = Outcome.returned () w := by
  rfl

/-! ## Closing the client -/

/-- C2: for a configuration in which tracing is disabled, `NewClient` returns
a client whose provider is nil, and `Close` on that client calls
`UnregisterSpanProcessor` on the nil provider: it panics with a nil-pointer
dereference instead of returning. -/
theorem Close_disabled_client_panics (d : Deps) (cfg : Config) (w : World)
    (h : (d.Init cfg).Disabled = true) :
    ∃ c, NewClient d cfg w = Outcome.returned c w ∧ c.provider = none ∧ c.sp = none ∧
      c.Close w = Outcome.panicked nilDereference w := by
  refine ⟨_, NewClient_disabled d cfg w h, rfl, rfl, ?_⟩
  simp [Client.Close, sdktrace.Provider.UnregisterSpanProcessor]

/-- Witness of C2: the disabled configuration in the initial world. -/
theorem Close_disabled_client_panics_witness :
    (Deps.succeeding.Init Config.disabled).Disabled = true ∧
    ∃ c, NewClient Deps.succeeding Config.disabled World.initial
        = Outcome.returned c World.initial ∧ c.provider = none ∧ c.sp = none ∧
      c.Close World.initial = Outcome.panicked nilDereference World.initial :=
  ⟨rfl, Close_disabled_client_panics Deps.succeeding Config.disabled World.initial rfl⟩

/-- C3, as the claim states it, fails: after a successful setup, two calls of
`Close` call `UnregisterSpanProcessor` for the client's processor twice, not
once. -/
theorem Close_twice_unregisters_twice :
    countCalls (Call.isUnregister ⟨0⟩ ⟨7⟩)
        ((NewClient Deps.succeeding Config.enabled World.initial).andThen
          closeTwice).world.trace = 2 ∧
    ¬ countCalls (Call.isUnregister ⟨0⟩ ⟨7⟩)
        ((NewClient Deps.succeeding Config.enabled World.initial).andThen
          closeTwice).world.trace = 1 := by
  decide

/-- C3, amended: on a client whose provider and processor are set, two calls
of `Close` in a row both return a nil error. Each call calls
`UnregisterSpanProcessor` for the client's processor, so twice in all; the
processor is shut down once, by the first call, when it was registered, and
not at all when it was not; afterwards it is not registered. -/
theorem Close_twice_releases_once (c : Client) (w : World) (p : sdktrace.Provider)
    (sp : sdktrace.SpanProcessor) (hp : c.provider = some p) (hsp : c.sp = some sp) :
    ∃ w2 w3, c.Close w = Outcome.returned none w2 ∧
      c.Close w2 = Outcome.returned none w3 ∧
      w3.trace = w.trace ++
        (if (p, some sp) ∈ w.registered then
          [Call.UnregisterSpanProcessor p (some sp), Call.Shutdown sp,
           Call.UnregisterSpanProcessor p (some sp)]
         else
          [Call.UnregisterSpanProcessor p (some sp),
           Call.UnregisterSpanProcessor p (some sp)]) ∧
      (p, some sp) ∉ w3.registered := by
  by_cases hreg : (p, some sp) ∈ w.registered
  · simp [Client.Close, sdktrace.Provider.UnregisterSpanProcessor, hp, hsp, hreg, World.log,
      List.mem_filter]
  · simp [Client.Close, sdktrace.Provider.UnregisterSpanProcessor, hp, hsp, hreg, World.log]

/-- Witness of C3 amended: the client and the world a successful `NewClient`
leaves. -/
theorem Close_twice_releases_once_witness :
    Client.enabled.provider = some ⟨0⟩ ∧ Client.enabled.sp = some ⟨7⟩ ∧
    ∃ w2 w3, Client.enabled.Close World.afterSetup = Outcome.returned none w2 ∧
      Client.enabled.Close w2 = Outcome.returned none w3 ∧
      w3.trace = World.afterSetup.trace ++
        (if ((⟨0⟩ : sdktrace.Provider), some (⟨7⟩ : sdktrace.SpanProcessor))
            ∈ World.afterSetup.registered then
          [Call.UnregisterSpanProcessor ⟨0⟩ (some ⟨7⟩), Call.Shutdown ⟨7⟩,
           Call.UnregisterSpanProcessor ⟨0⟩ (some ⟨7⟩)]
         else
          [Call.UnregisterSpanProcessor ⟨0⟩ (some ⟨7⟩),
           Call.UnregisterSpanProcessor ⟨0⟩ (some ⟨7⟩)]) ∧
      ((⟨0⟩ : sdktrace.Provider), some (⟨7⟩ : sdktrace.SpanProcessor)) ∉ w3.registered :=
  ⟨rfl, rfl, Close_twice_releases_once Client.enabled World.afterSetup ⟨0⟩ ⟨7⟩ rfl rfl⟩

/-! ## Resolving the configuration -/

/-- C8: for each value-carrying constructor, `newConfig` on two options built
by it gives the field the value of the second option, in either order and in
every environment: `[o1, o2]` yields `v2` and `[o2, o1]` yields `v1`. -/
theorem newConfig_last_write_wins (env : os.Environ)
    (d1 d2 n1 n2 s1 s2 : GoString) (a1 a2 : List AttributeKeyValue)
    (r1 r2 : Nilable resource.Resource) (p1 p2 : Nilable sdktrace.TracerProvider)
    (t1 t2 : Nilable sdktrace.Sampler) (m1 m2 : Nilable propagation.TextMapPropagator) :
    ((newConfig env [WithDSN d1, WithDSN d2]).DSN = d2 ∧
      (newConfig env [WithDSN d2, WithDSN d1]).DSN = d1) ∧
    ((newConfig env [WithServiceName n1, WithServiceName n2]).ServiceName = n2 ∧
      (newConfig env [WithServiceName n2, WithServiceName n1]).ServiceName = n1) ∧
    ((newConfig env [WithServiceVersion s1, WithServiceVersion s2]).ServiceVersion = s2 ∧
      (newConfig env [WithServiceVersion s2, WithServiceVersion s1]).ServiceVersion = s1) ∧
    ((newConfig env [WithResourceAttributes a1, WithResourceAttributes a2]).ResourceAttributes
        = a2 ∧
      (newConfig env [WithResourceAttributes a2, WithResourceAttributes a1]).ResourceAttributes
        = a1) ∧
    ((newConfig env [WithResource r1, WithResource r2]).Resource = r2 ∧
      (newConfig env [WithResource r2, WithResource r1]).Resource = r1) ∧
    ((newConfig env [WithTracerProvider p1, WithTracerProvider p2]).TracerProvider = p2 ∧
      (newConfig env [WithTracerProvider p2, WithTracerProvider p1]).TracerProvider = p1) ∧
    ((newConfig env [WithTraceSampler t1, WithTraceSampler t2]).TraceSampler = t2 ∧
      (newConfig env [WithTraceSampler t2, WithTraceSampler t1]).TraceSampler = t1) ∧
    ((newConfig env [WithTextMapPropagator m1, WithTextMapPropagator m2]).TextMapPropagator
        = m2 ∧
      (newConfig env [WithTextMapPropagator m2, WithTextMapPropagator m1]).TextMapPropagator
        = m1) :=
  ⟨⟨rfl, rfl⟩, ⟨rfl, rfl⟩, ⟨rfl, rfl⟩, ⟨rfl, rfl⟩, ⟨rfl, rfl⟩, ⟨rfl, rfl⟩, ⟨rfl, rfl⟩,
    ⟨rfl, rfl⟩⟩

/-- C9: the DSN of `newConfig` is seeded from `UPTRACE_DSN` before the options
are applied. For a list `calls` without a call of `WithDSN`, the DSN is the
value of the variable when it is set and the empty string when it is not. For
a list whose last call of `WithDSN` is `WithDSN(d)` (no call of `WithDSN` in
`post`), the DSN is `d` in every environment. -/
theorem newConfig_DSN (env : os.Environ) (calls pre post : List OptionCall) (d : GoString)
    (hcalls : calls.any OptionCall.isWithDSN = false)
    (hpost : post.any OptionCall.isWithDSN = false) :
    (newConfig env (calls.map OptionCall.eval)).DSN =
        (match env.lookup "UPTRACE_DSN" with
         | some s => s
         | none => "") ∧
    (newConfig env ((pre ++ OptionCall.WithDSN d :: post).map OptionCall.eval)).DSN = d := by
  constructor
  · rw [newConfig_eq_foldl, foldl_keeps_DSN calls _ hcalls, newConfig_nil_DSN]
  · rw [newConfig_eq_foldl, List.map_append, List.foldl_append, List.map_cons,
      List.foldl_cons, foldl_keeps_DSN post _ hpost]
    rfl

/-- Witness of C9: the variable set to `"https://key@host/2"`; a list without
`WithDSN`, and a list whose last `WithDSN` carries `"https://key@host/1"`. -/
theorem newConfig_DSN_witness :
    [OptionCall.WithServiceName "checkout", OptionCall.WithTracingDisabled].any
        OptionCall.isWithDSN = false ∧
    [OptionCall.WithServiceName "checkout"].any OptionCall.isWithDSN = false ∧
    (newConfig [("UPTRACE_DSN", "https://key@host/2")]
        ([OptionCall.WithServiceName "checkout", OptionCall.WithTracingDisabled].map
          OptionCall.eval)).DSN =
        (match List.lookup "UPTRACE_DSN" [("UPTRACE_DSN", "https://key@host/2")] with
         | some s => s
         | none => "") ∧
    (newConfig [("UPTRACE_DSN", "https://key@host/2")]
        (([OptionCall.WithDSN "https://key@host/0"] ++
            OptionCall.WithDSN "https://key@host/1" ::
              [OptionCall.WithServiceName "checkout"]).map OptionCall.eval)).DSN
      = "https://key@host/1" :=
  ⟨by decide, by decide,
    newConfig_DSN [("UPTRACE_DSN", "https://key@host/2")]
      [OptionCall.WithServiceName "checkout", OptionCall.WithTracingDisabled]
      [OptionCall.WithDSN "https://key@host/0"] [OptionCall.WithServiceName "checkout"]
      "https://key@host/1" (by decide) (by decide)⟩

/-- C10: a list of options built by the exported constructors that contains
`WithTracingDisabled()` at any position resolves to a configuration with
`TracingDisabled` set. And `NewClient` on a configuration in which tracing is
disabled returns a client whose processor and provider are nil, in a world it
left untouched: no provider or processor was built or registered, and the
process-wide provider is the one it was. -/
theorem tracing_disabled_no_setup (env : os.Environ) (calls : List OptionCall)
    (d : Deps) (cfg : Config) (w : World)
    (hmem : OptionCall.WithTracingDisabled ∈ calls)
    (hdis : (d.Init cfg).Disabled = true) :
    (newConfig env (calls.map OptionCall.eval)).TracingDisabled = true ∧
    ∃ c w1, NewClient d cfg w = Outcome.returned c w1 ∧
      c.sp = none ∧ c.provider = none ∧
      w1 = w ∧ w1.trace = w.trace ∧ w1.registered = w.registered ∧
      w1.globalProvider = w.globalProvider := by
  constructor
  · rw [newConfig_eq_foldl]
    exact foldl_sets_TracingDisabled calls _ hmem
  · exact ⟨_, _, NewClient_disabled d cfg w hdis, rfl, rfl, rfl, rfl, rfl, rfl⟩

/-- Witness of C10: `WithTracingDisabled()` between two other tracing options,
and the disabled configuration in the world a previous setup left. -/
theorem tracing_disabled_no_setup_witness :
    OptionCall.WithTracingDisabled ∈
      [OptionCall.WithTraceSampler (some ⟨"AlwaysOnSampler"⟩),
       OptionCall.WithTracingDisabled, OptionCall.WithPrettyPrintSpanExporter] ∧
    (Deps.succeeding.Init Config.disabled).Disabled = true ∧
    (newConfig []
      ([OptionCall.WithTraceSampler (some ⟨"AlwaysOnSampler"⟩),
        OptionCall.WithTracingDisabled, OptionCall.WithPrettyPrintSpanExporter].map
          OptionCall.eval)).TracingDisabled = true ∧
    ∃ c w1, NewClient Deps.succeeding Config.disabled World.afterSetup
        = Outcome.returned c w1 ∧
      c.sp = none ∧ c.provider = none ∧
      w1 = World.afterSetup ∧ w1.trace = World.afterSetup.trace ∧
      w1.registered = World.afterSetup.registered ∧
      w1.globalProvider = World.afterSetup.globalProvider :=
  ⟨by decide, rfl,
    tracing_disabled_no_setup []
      [OptionCall.WithTraceSampler (some ⟨"AlwaysOnSampler"⟩),
       OptionCall.WithTracingDisabled, OptionCall.WithPrettyPrintSpanExporter]
      Deps.succeeding Config.disabled World.afterSetup (by decide) rfl⟩

end uptrace
